import Mathlib

/-!
Verification of the Attempt Lifecycle Engine of the quiz backend.

The definitions below are a shallow embedding of the JavaScript sources:
  - src/controllers/quizzes.controller.js (QuizzesController: startQuiz,
    submitQuiz, autoSaveAnswers),
  - controllers/attempts.controller.js (AttemptsController: startAttempt,
    submitAttempt),
  - models/QuizAttempt.js (the pre-save percentage hook),
  - models/Question.js (the question shape).
JavaScript numbers are modelled as rationals, millisecond timestamps as
integers, and optional or nullable fields as Option.  The JS truthiness
idiom `x || d` on a numeric field treats 0 as absent; `jsOrQ` models it.
-/

namespace QuizEngine

/-- Severity of an anti-cheat flag reason, from the QuizAttempt schema enum. -/
inductive Severity where
  | low
  | medium
  | high
deriving DecidableEq, Repr

/-- Attempt lifecycle status, from the QuizAttempt schema enum. -/
inductive AttemptStatus where
  | in_progress
  | submitted
  | auto_graded
  | needs_manual_review
  | manually_graded
  | flagged
  | timeout
  | abandoned
deriving DecidableEq, Repr

/-- Question type, from the Question schema enum. -/
inductive QType where
  | mcq_single
  | mcq_multi
  | short_answer
  | numeric
  | true_false
deriving DecidableEq, Repr

/-- A dynamically typed answer value (the Mixed `answer` and `correct`
fields): a string, a number, or an array of choice-id strings. -/
inductive AnswerValue where
  | text (s : String)
  | number (q : ℚ)
  | choices (l : List String)
deriving DecidableEq, Repr

/-- A choice of a question, from the Question schema: stable id, display
text, and the hidden correctness flag. -/
structure Choice where
  id : String
  text : String
  isCorrect : Bool
deriving DecidableEq, Repr

/-- A question-bank item, restricted to the fields the grading code reads.
`tolerance` is read by the numeric branch of submitQuiz as
`questionData.tolerance || 0.01`; the Question schema itself declares no
such path, so on real documents it is always absent. -/
structure Question where
  qid : String
  qtype : QType
  prompt : String
  choices : List Choice
  correct : AnswerValue
  marks : ℚ
  negativeMarks : ℚ
  tolerance : Option ℚ
  isActive : Bool
deriving DecidableEq, Repr

/-- One entry of the selectedQuestions snapshot, restricted to the fields
submitQuiz reads (the question id and the snapshot marks). -/
structure SelectedQuestion where
  question : String
  marks : Option ℚ
deriving DecidableEq, Repr

/-- One element of the submitted `answers` array. -/
structure SubmittedAnswer where
  questionId : String
  answer : Option AnswerValue
deriving DecidableEq, Repr

/-- One stored rawAnswers entry (client timestamps are recorded but never
used by the grading logic, so only the server timestamp is kept). -/
structure RawAnswer where
  questionId : String
  answer : Option AnswerValue
  serverTimestampMs : ℤ
deriving DecidableEq, Repr

/-- One flaggedReasons entry of quizzes.controller.js (reason text plus
severity; the server timestamp and free-text details are dropped). -/
structure FlagReason where
  reason : String
  severity : Severity
deriving DecidableEq, Repr

/-- One autoGradeResult entry.  `partCredit` models the isPartial field. -/
structure GradeEntry where
  questionId : String
  score : ℚ
  maxScore : ℚ
  isCorrect : Bool
  partCredit : Bool
  feedback : String
deriving DecidableEq, Repr

/-- How a graded question is counted by the aggregation (which of
correctCount, wrongCount, partialCount, unansweredCount is incremented). -/
inductive Tag where
  | correct
  | wrong
  | part
  | unanswered
deriving DecidableEq, Repr

/-- Result of grading one answered question: the earned score, the
correctness and partial-credit flags, the count bucket, and feedback. -/
structure QGrade where
  score : ℚ
  isCorrect : Bool
  partCredit : Bool
  tag : Tag
  feedback : String
deriving DecidableEq, Repr

/-- JS `x || d` on an optional numeric field: 0 is falsy, so both an
absent value and an explicit 0 fall back to the default. -/
def jsOrQ (x : Option ℚ) (d : ℚ) : ℚ :=
  match x with
  | none => d
  | some v => if v = 0 then d else v

/-- JS truthiness of an optional string: present and non-empty. -/
def jsTruthyS (x : Option String) : Bool :=
  match x with
  | none => false
  | some s => s ≠ ""

/-! ### Sorting (model of JS Array.prototype.sort on string arrays) -/

/-- Insert a string into a list ordered by the lexicographic order. -/
def insertLe (a : String) : List String → List String
  | [] => [a]
  | b :: bs => if a ≤ b then a :: b :: bs else b :: insertLe a bs

/-- Sort a list of strings (model of JS `.sort()` on choice-id arrays:
any comparison sort yields the same ordered list). -/
def sortStrings : List String → List String
  | [] => []
  | a :: as => insertLe a (sortStrings as)

theorem insertLe_perm (a : String) (l : List String) :
    (insertLe a l).Perm (a :: l) := by
  induction l with
  | nil => simp [insertLe]
  | cons b bs ih =>
    by_cases h : a ≤ b
    · simp [insertLe, h]
    · simp only [insertLe, if_neg h]
      exact ((ih.cons b).trans (List.Perm.swap a b bs))

theorem sortStrings_perm (l : List String) : (sortStrings l).Perm l := by
  induction l with
  | nil => simp [sortStrings]
  | cons a as ih =>
    exact (insertLe_perm a (sortStrings as)).trans (ih.cons a)

theorem insertLe_sorted (a : String) (l : List String)
    (h : List.Sorted (· ≤ ·) l) :
    List.Sorted (· ≤ ·) (insertLe a l) := by
  induction l with
  | nil => simp [insertLe]
  | cons b bs ih =>
    rcases List.sorted_cons.mp h with ⟨hb, hbs⟩
    by_cases hab : a ≤ b
    · simp only [insertLe, if_pos hab]
      refine List.sorted_cons.mpr ⟨?_, h⟩
      intro c hc
      rcases List.mem_cons.mp hc with hc1 | hc1
      · exact hc1 ▸ hab
      · exact le_trans hab (hb c hc1)
    · simp only [insertLe, if_neg hab]
      refine List.sorted_cons.mpr ⟨?_, ih hbs⟩
      intro c hc
      have hmem : c ∈ a :: bs := (insertLe_perm a bs).mem_iff.mp hc
      rcases List.mem_cons.mp hmem with hc1 | hc1
      · exact hc1 ▸ le_of_not_le hab
      · exact hb c hc1

theorem sortStrings_sorted (l : List String) :
    List.Sorted (· ≤ ·) (sortStrings l) := by
  induction l with
  | nil => simp [sortStrings]
  | cons a as ih => exact insertLe_sorted a (sortStrings as) ih

/-- Two lists have equal sorts exactly when they are permutations of each
other: this is what comparing JSON-serialised sorted arrays decides. -/
theorem sortStrings_eq_iff_perm (l₁ l₂ : List String) :
    sortStrings l₁ = sortStrings l₂ ↔ l₁.Perm l₂ := by
  constructor
  · intro h
    exact ((sortStrings_perm l₁).symm.trans (h ▸ List.Perm.refl _)).trans
      (sortStrings_perm l₂)
  · intro h
    exact List.eq_of_perm_of_sorted
      (((sortStrings_perm l₁).trans h).trans (sortStrings_perm l₂).symm)
      (sortStrings_sorted l₁) (sortStrings_sorted l₂)

/-- For duplicate-free lists, being permutations is the same as carrying
the same finite set of elements. -/
theorem perm_iff_toFinset_eq {l₁ l₂ : List String}
    (h₁ : l₁.Nodup) (h₂ : l₂.Nodup) :
    l₁.Perm l₂ ↔ l₁.toFinset = l₂.toFinset :=
  ⟨List.toFinset_eq_of_perm l₁ l₂, List.perm_of_nodup_nodup_toFinset_eq h₁ h₂⟩

/-! ### Grading engine (quizzes.controller.js submitQuiz, lines 1923-2109) -/

/-- JS `value.toString()` for the Mixed answer values (a number rendering
approximated by the rational printer; an array joins with commas). -/
def jsToString : AnswerValue → String
  | .text s => s
  | .number q => toString q
  | .choices l => String.intercalate "," l

/-- JS `parseFloat(value)`: a number parses to itself; other shapes are
modelled as NaN (every comparison with NaN is false, hence `none`). -/
def parseFloatQ : AnswerValue → Option ℚ
  | .number q => some q
  | _ => none

/-- mcq_single branch: exact toString match of the submitted value against
the `correct` field gives the marks, any other answer gives minus the
negative marks. -/
def gradeMcqSingle (correct : AnswerValue) (val : AnswerValue)
    (marks neg : ℚ) : QGrade :=
  let isCorrect := jsToString val = jsToString correct
  { score := if isCorrect then marks else -neg
    isCorrect := isCorrect
    partCredit := false
    tag := if isCorrect then .correct else .wrong
    feedback := if isCorrect then "Correct" else "Incorrect" }

/-- The ids of the choices marked correct, in choice order
(`choices.filter(c => c.isCorrect).map(c => c.id)`). -/
def correctIdsRaw (cs : List Choice) : List String :=
  (cs.filter (fun c => c.isCorrect)).map (fun c => c.id)

/-- The sorted list of ids of the choices marked correct
(`choices.filter(c => c.isCorrect).map(c => c.id).sort()`). -/
def correctChoiceIds (cs : List Choice) : List String :=
  sortStrings (correctIdsRaw cs)

/-- The sorted submitted choice ids
(`Array.isArray(answer) ? answer.map(a => a.toString()).sort() : []`). -/
def submittedChoiceIds (val : AnswerValue) : List String :=
  match val with
  | .choices l => sortStrings l
  | _ => []

/-- mcq_multi branch: full marks on an exact sorted match, otherwise the
proportional partial credit `max(0, (selected − wrong) / |correct| * marks)`,
counted as partial when positive and wrong when zero. -/
def gradeMcqMulti (cs : List Choice) (val : AnswerValue) (marks : ℚ) :
    QGrade :=
  let correctChoices := correctChoiceIds cs
  let submittedChoices := submittedChoiceIds val
  if submittedChoices = correctChoices then
    { score := marks, isCorrect := true, partCredit := false,
      tag := .correct, feedback := "All correct answers selected" }
  else
    let correctSelected :=
      (submittedChoices.filter (fun sc => decide (sc ∈ correctChoices))).length
    let wrongSelected :=
      (submittedChoices.filter (fun sc => decide (sc ∉ correctChoices))).length
    let pScore : ℚ := max 0
      (((correctSelected : ℚ) - (wrongSelected : ℚ))
        / (correctChoices.length : ℚ) * marks)
    { score := pScore
      isCorrect := false
      partCredit := decide (0 < pScore)
      tag := if 0 < pScore then .part else .wrong
      feedback := if 0 < pScore then "Partially correct" else "Incorrect" }

/-- true_false branch: case-insensitive toString match, otherwise minus the
negative marks. -/
def gradeTrueFalse (correct : AnswerValue) (val : AnswerValue)
    (marks neg : ℚ) : QGrade :=
  let isCorrect := (jsToString val).toLower = (jsToString correct).toLower
  { score := if isCorrect then marks else -neg
    isCorrect := isCorrect
    partCredit := false
    tag := if isCorrect then .correct else .wrong
    feedback := if isCorrect then "Correct" else "Incorrect" }

/-- numeric branch: `|parseFloat(submitted) − parseFloat(correct)| <=
(question.tolerance || 0.01)` earns the marks, otherwise minus the negative
marks.  A failed parse behaves like NaN: the comparison is false. -/
def gradeNumeric (correct : AnswerValue) (tol : Option ℚ)
    (val : AnswerValue) (marks neg : ℚ) : QGrade :=
  let tolerance := jsOrQ tol (1 / 100)
  let isCorrect :=
    match parseFloatQ val, parseFloatQ correct with
    | some s, some c => decide (|s - c| ≤ tolerance)
    | _, _ => false
  { score := if isCorrect then marks else -neg
    isCorrect := isCorrect
    partCredit := false
    tag := if isCorrect then .correct else .wrong
    feedback := if isCorrect then "Correct" else "Incorrect" }

/-- Dispatch on the question type for an answered question.  short_answer
has no branch in the submitQuiz loop: the answer is silently skipped
(no grade entry, no count, no score contribution). -/
def gradeAnswered (q : Question) (val : AnswerValue) (marks : ℚ) :
    Option QGrade :=
  match q.qtype with
  | .mcq_single => some (gradeMcqSingle q.correct val marks q.negativeMarks)
  | .mcq_multi => some (gradeMcqMulti q.choices val marks)
  | .true_false => some (gradeTrueFalse q.correct val marks q.negativeMarks)
  | .numeric =>
      some (gradeNumeric q.correct q.tolerance val marks q.negativeMarks)
  | .short_answer => none

/-- The running aggregation of the grading loop. -/
structure GradeAcc where
  totalScore : ℚ
  correctCount : ℕ
  wrongCount : ℕ
  partCount : ℕ
  unansweredCount : ℕ
  results : List GradeEntry
deriving DecidableEq, Repr

/-- The initial accumulator of the grading loop. -/
def initAcc : GradeAcc :=
  { totalScore := 0, correctCount := 0, wrongCount := 0, partCount := 0,
    unansweredCount := 0, results := [] }

/-- The submitted value of an answer entry; `none` when there is no entry
or the value is null, undefined, or the empty string (the unanswered
test of the loop). -/
def submittedVal (s : Option SubmittedAnswer) : Option AnswerValue :=
  match s with
  | none => none
  | some a =>
    match a.answer with
    | none => none
    | some (.text "") => none
    | some v => some v

/-- One iteration of the grading loop of submitQuiz: look the question up
in the bank (skipping it when missing), find the submitted answer, and
either record an unanswered entry or grade by type. -/
def gradeOne (bank : List Question) (answers : List SubmittedAnswer)
    (acc : GradeAcc) (sq : SelectedQuestion) : GradeAcc :=
  match bank.find? (fun q => q.qid = sq.question) with
  | none => acc
  | some q =>
    let submitted := answers.find? (fun a => a.questionId = sq.question)
    let marks := jsOrQ sq.marks (jsOrQ (some q.marks) 1)
    match submittedVal submitted with
    | none =>
      { acc with
        unansweredCount := acc.unansweredCount + 1
        results := acc.results ++
          [{ questionId := sq.question, score := 0, maxScore := marks,
             isCorrect := false, partCredit := false,
             feedback := "Not answered" }] }
    | some val =>
      match gradeAnswered q val marks with
      | none => acc
      | some g =>
        { acc with
          totalScore := acc.totalScore + g.score
          correctCount := acc.correctCount + (if g.tag = .correct then 1 else 0)
          wrongCount := acc.wrongCount + (if g.tag = .wrong then 1 else 0)
          partCount := acc.partCount + (if g.tag = .part then 1 else 0)
          results := acc.results ++
            [{ questionId := sq.question, score := g.score, maxScore := marks,
               isCorrect := g.isCorrect, partCredit := g.partCredit,
               feedback := g.feedback }] }

/-- The grading loop over the selectedQuestions snapshot. -/
def gradeLoop (sel : List SelectedQuestion) (bank : List Question)
    (answers : List SubmittedAnswer) : GradeAcc :=
  sel.foldl (gradeOne bank answers) initAcc

/-- The final clamp `totalScore = Math.max(0, totalScore)` (line 2109). -/
def clampScore (total : ℚ) : ℚ := max 0 total

/-! ### Attempt state (quizzes.controller.js) -/

/-- The anti-cheat settings of a quiz consumed by submitQuiz. -/
structure AntiCheatSettings where
  maxTabSwitches : Option ℤ
  trackIPAddress : Bool
  allowIPChange : Bool
deriving DecidableEq, Repr

/-- The quiz configuration fields consumed by submitQuiz and the resume
path of startQuiz. -/
structure QuizCfg where
  durationMinutes : ℚ
  passingMarks : ℚ
  showCorrectAnswers : Bool
  antiCheatSettings : AntiCheatSettings
deriving DecidableEq, Repr

/-- The QuizAttempt document fields touched by the quizzes controller. -/
structure AttemptQ where
  user : String
  status : AttemptStatus
  startTimeMs : ℤ
  endTimeMs : Option ℤ
  timeSpentSeconds : Option ℚ
  selectedQuestions : List SelectedQuestion
  rawAnswers : List RawAnswer
  tabSwitches : ℤ
  ipAtStart : String
  ipAtEnd : Option String
  userAgentStart : String
  userAgentEnd : Option String
  clientFingerprint : Option String
  isFlagged : Bool
  flaggedReasons : List FlagReason
  totalScore : ℚ
  maxScore : ℚ
  correctCount : ℕ
  wrongCount : ℕ
  partCount : ℕ
  unansweredCount : ℕ
  autoGradeResult : List GradeEntry
  percentage : Option ℚ
  passed : Option Bool
  resumeCount : ℤ
deriving DecidableEq, Repr

/-- The request body and metadata of a submit call. -/
structure SubmitReq where
  studentId : String
  answers : Option (List SubmittedAnswer)
  tabSwitches : Option ℤ
  timeSpentSeconds : Option ℚ
  clientFingerprint : Option String
  submitIP : String
  submitUserAgent : String
deriving DecidableEq, Repr

/-- The observable outcome of a submit call. -/
inductive SubmitOutcomeQ where
  | notOwner
  | alreadySubmitted (st : AttemptStatus)
  | timeExpired
  | invalidAnswers
  | ok
deriving DecidableEq, Repr

/-- Tab-switch update of autoSaveAnswers (line 2345): only applied when the
client sent a value, and then `Math.max(attempt.tabSwitches || 0, sent)`
(on an always-present integer field `x || 0` is the identity). -/
def autoSaveTabSwitches (old : ℤ) (reported : Option ℤ) : ℤ :=
  match reported with
  | none => old
  | some r => max old r

/-- Tab-switch update of submitQuiz (line 1860):
`Math.max(attempt.tabSwitches || 0, tabSwitches || 0)`. -/
def submitTabSwitches (old : ℤ) (reported : Option ℤ) : ℤ :=
  max old (reported.getD 0)

/-- The submitQuiz state transition (quizzes.controller.js lines
1751-2178), from the ownership guard on.  Steps with no effect on the
attempt document (id validation, the missing-attempt 404) are outside the
model; the transaction makes the rejection paths stateless. -/
def submitQuizStep (a : AttemptQ) (quiz : QuizCfg) (r : SubmitReq)
    (bank : List Question) (nowMs : ℤ) : SubmitOutcomeQ × AttemptQ :=
  if r.studentId ≠ a.user then (.notOwner, a)
  else if a.status ≠ .in_progress then (.alreadySubmitted a.status, a)
  else
    let actualTimeSpent : ℤ := Int.fdiv (nowMs - a.startTimeMs) 1000
    let allowedDuration : ℚ := quiz.durationMinutes * 60
    let gracePeriod : ℚ := 30
    if (actualTimeSpent : ℚ) > allowedDuration + gracePeriod then
      (.timeExpired,
        { a with
          status := .timeout
          endTimeMs := some nowMs
          timeSpentSeconds := some (actualTimeSpent : ℚ)
          isFlagged := true
          flaggedReasons := a.flaggedReasons ++
            [{ reason := "Submission after time limit expired",
               severity := .high }] })
    else
      match r.answers with
      | none => (.invalidAnswers, a)
      | some ans =>
        let raw := ans.map (fun x =>
          ({ questionId := x.questionId, answer := x.answer,
             serverTimestampMs := nowMs } : RawAnswer))
        let tabs := submitTabSwitches a.tabSwitches r.tabSwitches
        let maxTab : ℤ :=
          match quiz.antiCheatSettings.maxTabSwitches with
          | none => 5
          | some v => if v = 0 then 5 else v
        let tabFlags : List FlagReason :=
          if tabs > maxTab then
            [{ reason := "Excessive tab switches detected", severity := .high }]
          else []
        let ipFlags : List FlagReason :=
          if quiz.antiCheatSettings.trackIPAddress
              ∧ ¬quiz.antiCheatSettings.allowIPChange
              ∧ a.ipAtStart ≠ "" ∧ r.submitIP ≠ ""
              ∧ a.ipAtStart ≠ r.submitIP then
            [{ reason := "IP address changed during quiz", severity := .medium }]
          else []
        let uaFlags : List FlagReason :=
          if a.userAgentStart ≠ "" ∧ r.submitUserAgent ≠ ""
              ∧ a.userAgentStart ≠ r.submitUserAgent then
            [{ reason := "User agent changed during quiz", severity := .medium }]
          else []
        let fpFlags : List FlagReason :=
          if jsTruthyS a.clientFingerprint ∧ jsTruthyS r.clientFingerprint
              ∧ a.clientFingerprint ≠ r.clientFingerprint then
            [{ reason := "Client fingerprint mismatch", severity := .high }]
          else []
        let minReasonableTime : ℚ := min (quiz.durationMinutes * 60 * (1/10)) 60
        let fastFlags : List FlagReason :=
          if (actualTimeSpent : ℚ) < minReasonableTime then
            [{ reason := "Suspiciously fast completion", severity := .medium }]
          else []
        let newFlags := tabFlags ++ ipFlags ++ uaFlags ++ fpFlags ++ fastFlags
        let acc := gradeLoop a.selectedQuestions bank ans
        let total := clampScore acc.totalScore
        (.ok,
          { a with
            status := .submitted
            rawAnswers := raw
            tabSwitches := tabs
            ipAtEnd := some r.submitIP
            userAgentEnd := some r.submitUserAgent
            isFlagged := a.isFlagged || decide (newFlags ≠ [])
            flaggedReasons := a.flaggedReasons ++ newFlags
            totalScore := total
            correctCount := acc.correctCount
            wrongCount := acc.wrongCount
            partCount := acc.partCount
            unansweredCount := acc.unansweredCount
            autoGradeResult := acc.results
            endTimeMs := some nowMs
            timeSpentSeconds :=
              some (jsOrQ r.timeSpentSeconds (actualTimeSpent : ℚ))
            percentage := some (total / a.maxScore * 100)
            passed := some (decide (total ≥ quiz.passingMarks)) })

/-- The outcome of the expiry check of the resume path of startQuiz. -/
structure ResumeOutcome where
  rejected : Bool
  timeExpiredError : Bool
  attempt : AttemptQ
deriving DecidableEq, Repr

/-- The expiry check of the resume path of startQuiz (lines 1519-1546):
when the elapsed time exceeds the duration plus the 60-second grace the
attempt is forced into timeout, stamped, flagged high-severity, and the
resume is rejected with the time-expired error; otherwise the attempt
continues into the resume flow unchanged by this check. -/
def resumeExpiryCheck (a : AttemptQ) (durationMinutes : ℚ) (nowMs : ℤ) :
    ResumeOutcome :=
  let elapsed : ℤ := nowMs - a.startTimeMs
  let durationMs : ℚ := durationMinutes * 60 * 1000
  let gracePeriodMs : ℚ := 60000
  if (elapsed : ℚ) > durationMs + gracePeriodMs then
    { rejected := true
      timeExpiredError := true
      attempt :=
        { a with
          status := .timeout
          endTimeMs := some nowMs
          timeSpentSeconds := some ((Int.fdiv elapsed 1000 : ℤ) : ℚ)
          isFlagged := true
          flaggedReasons := a.flaggedReasons ++
            [{ reason := "Attempt resumed after time limit expired",
               severity := .high }] } }
  else
    { rejected := false, timeExpiredError := false, attempt := a }

/-- Whether an attempt status is counted by the attempt-limit query of
startQuiz (lines 1495-1500): `status in [submitted, auto_graded, timeout,
manually_graded]`. -/
def countsTowardLimit (s : AttemptStatus) : Bool :=
  decide (s ∈ [AttemptStatus.submitted, AttemptStatus.auto_graded,
    AttemptStatus.timeout, AttemptStatus.manually_graded])

/-- The completed-attempts count of startQuiz (the countDocuments of the
guarded statuses over the (quiz, user) pair). -/
def completedAttemptsCount (statuses : List AttemptStatus) : ℕ :=
  (statuses.filter countsTowardLimit).length

/-- The attempt-limit guard of startQuiz (line 1502):
`completedAttempts >= quiz.attemptsAllowed` rejects the start. -/
def startQuizLimitBlocked (statuses : List AttemptStatus)
    (attemptsAllowed : ℕ) : Bool :=
  completedAttemptsCount statuses ≥ attemptsAllowed

/-- A choice as served to the student by the quizzes controller: only the
id and the text survive the projection. -/
structure ClientChoice where
  id : String
  text : String
deriving DecidableEq, Repr

/-- The choice projection of startQuiz (lines 1638-1639 and the rebuild at
1570-1571): `choices.map(c => ({ id: c.id, text: c.text }))`.  When
shuffleChoices is set the stripped list is additionally permuted, which
cannot reintroduce the dropped flag. -/
def snapshotChoices (cs : List Choice) : List ClientChoice :=
  cs.map (fun c => { id := c.id, text := c.text })

/-! ### AttemptsController (controllers/attempts.controller.js) -/

/-- The QuizAttempt fields touched by AttemptsController.submitAttempt.
This controller pushes plain strings into flaggedReasons. -/
structure Attempt3 where
  status : AttemptStatus
  startTimeMs : ℤ
  endTimeMs : Option ℤ
  tabSwitches : ℤ
  ipAtStart : String
  ipAtEnd : Option String
  userAgentEnd : Option String
  totalScore : ℚ
  maxScore : ℚ
  autoGradeResult : List GradeEntry
  flaggedReasons : List String
deriving DecidableEq, Repr

/-- The value returned by gradingService.autoGrade.  The grading service
file is not among the sources; only the three fields submitAttempt consumes
are modelled, as an opaque input to the state transition. -/
structure GradingOutcome where
  results : List GradeEntry
  totalScore : ℚ
  needsManualReview : Bool
deriving DecidableEq, Repr

/-- The suspicious-activity detection of submitAttempt (lines 338-358):
excessive tab switches, a start-to-end IP change when disallowed, and a
completion under 10 percent of the allowed duration. -/
def computeFlags3 (tabSwitches maxTabSwitches : ℤ)
    (ipAtStart submitIP : String) (allowIPChange : Bool)
    (actualTimeMs : ℤ) (expectedMinTimeMs : ℚ) : List String :=
  (if tabSwitches > maxTabSwitches then
    ["Excessive tab switches: " ++ toString tabSwitches] else []) ++
  (if ipAtStart ≠ submitIP ∧ ¬allowIPChange then
    ["IP address changed during attempt"] else []) ++
  (if (actualTimeMs : ℚ) < expectedMinTimeMs * (1/10) then
    ["Submitted suspiciously fast"] else [])

/-- The outcome of a submitAttempt call. -/
inductive SubmitOutcome3 where
  | rejectedAlready (st : AttemptStatus)
  | ok (st : AttemptStatus)
deriving DecidableEq, Repr

/-- The submitAttempt state transition (attempts controller, lines
296-432), from the status guard on: records the end signals, computes the
flag reasons, applies the grading result, and resolves the final status to
flagged, needs_manual_review, or auto_graded.  The interim assignments of
`submitted` and `flagged` before line 371 are overwritten by the final
resolution and are not separately modelled. -/
def submitAttempt3 (a : Attempt3) (durationMinutes : ℚ) (maxTab : ℤ)
    (allowIPChange : Bool) (grading : GradingOutcome)
    (submitIP submitUA : String) (nowMs : ℤ) : SubmitOutcome3 × Attempt3 :=
  if a.status ≠ .in_progress then (.rejectedAlready a.status, a)
  else
    let actualTimeMs := nowMs - a.startTimeMs
    let expectedMinTimeMs : ℚ := durationMinutes * 60 * 1000
    let flags := computeFlags3 a.tabSwitches maxTab a.ipAtStart submitIP
      allowIPChange actualTimeMs expectedMinTimeMs
    let finalStatus : AttemptStatus :=
      if flags ≠ [] then .flagged
      else if grading.needsManualReview then .needs_manual_review
      else .auto_graded
    (.ok finalStatus,
      { a with
        status := finalStatus
        endTimeMs := some nowMs
        ipAtEnd := some submitIP
        userAgentEnd := some submitUA
        autoGradeResult := grading.results
        totalScore := grading.totalScore
        flaggedReasons := if flags ≠ [] then flags else a.flaggedReasons })

/-- The attempt-limit guard of AttemptsController.startAttempt (lines
66-82): every existing attempt of the (quiz, user) pair counts, regardless
of its status (`existingAttempts.length >= quiz.attemptsAllowed`). -/
def startAttemptLimitBlocked3 (statuses : List AttemptStatus)
    (attemptsAllowed : ℕ) : Bool :=
  statuses.length ≥ attemptsAllowed

/-- The per-question client payload of AttemptsController.startAttempt
(lines 162-179): id, type, prompt, choices, and marks.  The top-level
`correct` field is dropped, but the choices are passed through whole, so
each choice still carries its hidden isCorrect flag (shuffling, when
enabled, only permutes the same records). -/
structure ClientQuestion3 where
  qid : String
  qtype : QType
  prompt : String
  choices : List Choice
  marks : ℚ
deriving DecidableEq, Repr

/-- The projection startAttempt applies to each served question before
returning it to the student. -/
def startAttemptClientQuestion (q : Question) : ClientQuestion3 :=
  { qid := q.qid, qtype := q.qtype, prompt := q.prompt,
    choices := q.choices, marks := q.marks }

/-! ### QuizAttempt model (models/QuizAttempt.js) -/

/-- The QuizAttempt document fields read by the pre-save hook.  The
totalScore path has a schema default of 0, so it is always defined. -/
structure AttemptDoc where
  totalScore : ℚ
  maxScore : ℚ
  percentage : Option ℚ
deriving DecidableEq, Repr

/-- The pre-save hook of quizAttemptSchema (lines 173-179): whenever
maxScore is positive, percentage is recomputed from the current scores
before every save. -/
def quizAttemptPreSave (d : AttemptDoc) : AttemptDoc :=
  if 0 < d.maxScore then
    { d with percentage := some (d.totalScore / d.maxScore * 100) }
  else d

/-! ### Claim theorems -/

/-- Claim C7: the tabSwitches counter is monotonic: autosave and submit
both store the maximum of the previous value and the client-reported
value, so the counter never decreases. -/
theorem C7_tab_switches_monotonic (old : ℤ) (reported : Option ℤ) (v : ℤ) :
    old ≤ autoSaveTabSwitches old reported ∧
    old ≤ submitTabSwitches old reported ∧
    autoSaveTabSwitches old (some v) = max old v ∧
    autoSaveTabSwitches old none = old ∧
    submitTabSwitches old reported = max old (reported.getD 0) := by
  refine ⟨?_, ?_, rfl, rfl, rfl⟩
  · cases reported with
    | none => exact le_refl old
    | some r => exact le_max_left old r
  · exact le_max_left old (reported.getD 0)

/-- Claim C10: whenever maxScore is positive, the pre-save hook recomputes
percentage as totalScore / maxScore * 100 (leaving the scores themselves
untouched), so every saved document satisfies the equation. -/
theorem C10_percentage_recomputed_on_save (d : AttemptDoc)
    (h : 0 < d.maxScore) :
    (quizAttemptPreSave d).percentage =
      some (d.totalScore / d.maxScore * 100) ∧
    (quizAttemptPreSave d).totalScore = d.totalScore ∧
    (quizAttemptPreSave d).maxScore = d.maxScore := by
  simp only [quizAttemptPreSave, if_pos h]
  simp

/-- Witness for C10 at totalScore 5, maxScore 10. -/
theorem C10_witness :
    (0 : ℚ) < 10 ∧
    (quizAttemptPreSave { totalScore := 5, maxScore := 10, percentage := none
      }).percentage = some ((5 : ℚ) / 10 * 100) :=
  ⟨by norm_num,
   (C10_percentage_recomputed_on_save
     { totalScore := 5, maxScore := 10, percentage := none } (by norm_num)).1⟩

/-- Claim C3: resuming an in_progress attempt whose elapsed time exceeds
the duration plus the 60-second grace forces a timeout transition with
endTime stamped and timeSpentSeconds computed, appends the high-severity
resumed-after-expiry flag, and rejects the resume with the time-expired
error. -/
theorem C3_resume_after_expiry_times_out (a : AttemptQ)
    (durationMinutes : ℚ) (nowMs : ℤ)
    (_hip : a.status = .in_progress)
    (h : ((nowMs - a.startTimeMs : ℤ) : ℚ) >
      durationMinutes * 60 * 1000 + 60000) :
    (resumeExpiryCheck a durationMinutes nowMs).rejected = true ∧
    (resumeExpiryCheck a durationMinutes nowMs).timeExpiredError = true ∧
    (resumeExpiryCheck a durationMinutes nowMs).attempt.status = .timeout ∧
    (resumeExpiryCheck a durationMinutes nowMs).attempt.endTimeMs =
      some nowMs ∧
    (resumeExpiryCheck a durationMinutes nowMs).attempt.timeSpentSeconds =
      some ((Int.fdiv (nowMs - a.startTimeMs) 1000 : ℤ) : ℚ) ∧
    (resumeExpiryCheck a durationMinutes nowMs).attempt.isFlagged = true ∧
    (resumeExpiryCheck a durationMinutes nowMs).attempt.flaggedReasons =
      a.flaggedReasons ++
        [{ reason := "Attempt resumed after time limit expired",
           severity := .high }] := by
  simp only [resumeExpiryCheck, if_pos h]
  simp

/-- An in_progress attempt document used to instantiate the claims about
the quizzes controller on concrete inputs. -/
def attemptInProgress : AttemptQ :=
  { user := "u1", status := .in_progress, startTimeMs := 0, endTimeMs := none,
    timeSpentSeconds := none, selectedQuestions := [], rawAnswers := [],
    tabSwitches := 0, ipAtStart := "ip", ipAtEnd := none,
    userAgentStart := "ua", userAgentEnd := none, clientFingerprint := none,
    isFlagged := false, flaggedReasons := [], totalScore := 0, maxScore := 10,
    correctCount := 0, wrongCount := 0, partCount := 0, unansweredCount := 0,
    autoGradeResult := [], percentage := none, passed := none,
    resumeCount := 0 }

/-- Witness for C3: the spec example, a 30-minute quiz resumed 31 minutes
and 1 second after the start. -/
theorem C3_witness :
    attemptInProgress.status = .in_progress ∧
    ((1861000 - attemptInProgress.startTimeMs : ℤ) : ℚ) >
      30 * 60 * 1000 + 60000 ∧
    (resumeExpiryCheck attemptInProgress 30 1861000).rejected = true ∧
    (resumeExpiryCheck attemptInProgress 30 1861000).attempt.status =
      .timeout := by
  have h1 : attemptInProgress.status = .in_progress := rfl
  have h2 : ((1861000 - attemptInProgress.startTimeMs : ℤ) : ℚ) >
      30 * 60 * 1000 + 60000 := by
    show ((1861000 - 0 : ℤ) : ℚ) > 30 * 60 * 1000 + 60000
    norm_num
  have h := C3_resume_after_expiry_times_out attemptInProgress 30 1861000 h1 h2
  exact ⟨h1, h2, h.1, h.2.2.1⟩

/-- The question used to exhibit the choice-flag leak of
AttemptsController.startAttempt. -/
def questionWithFlaggedChoice : Question :=
  { qid := "q1", qtype := .mcq_single, prompt := "pick one",
    choices := [{ id := "A", text := "alpha", isCorrect := true },
                { id := "B", text := "beta", isCorrect := false }],
    correct := .text "A", marks := 1, negativeMarks := 0, tolerance := none,
    isActive := true }

/-- Claim C6: the client payload of AttemptsController.startAttempt passes
the choices through whole, so the hidden isCorrect flag reaches the
student (here visibly true for choice A), while the quizzes-controller
projection keeps only id and text. -/
theorem C6_choice_flag_leaked :
    (startAttemptClientQuestion questionWithFlaggedChoice).choices =
      questionWithFlaggedChoice.choices ∧
    (startAttemptClientQuestion questionWithFlaggedChoice).choices.map
      (fun c => c.isCorrect) = [true, false] ∧
    snapshotChoices questionWithFlaggedChoice.choices =
      [{ id := "A", text := "alpha" }, { id := "B", text := "beta" }] :=
  ⟨rfl, rfl, rfl⟩

/-- No prefix of flagged-only attempts is counted by the startQuiz
attempt-limit query. -/
theorem filter_replicate_flagged (n : ℕ) :
    (List.replicate n AttemptStatus.flagged).filter countsTowardLimit
      = [] := by
  induction n with
  | zero => rfl
  | succ k ih => simp [List.replicate_succ, List.filter_cons,
      countsTowardLimit, ih]

/-- Counterexample for C9: one flagged attempt with attemptsAllowed 1
blocks a new start in AttemptsController.startAttempt (where every
attempt counts), even though the quizzes-controller limit ignores it. -/
theorem C9_counterexample :
    startAttemptLimitBlocked3 [AttemptStatus.flagged] 1 = true ∧
    startQuizLimitBlocked [AttemptStatus.flagged] 1 = false := by
  constructor
  · rfl
  · decide

/-- Claim C9 (amended): in QuizzesController.startQuiz the limit counts
only submitted, auto_graded, timeout, and manually_graded attempts, so a
history of flagged attempts never blocks a start there; in
AttemptsController.startAttempt every existing attempt counts toward
attemptsAllowed regardless of status. -/
theorem C9_start_limit_statuses (statuses : List AttemptStatus)
    (allowed : ℕ) (s : AttemptStatus) (n : ℕ) (h1 : 1 ≤ allowed) :
    (countsTowardLimit s = true ↔
      (s = .submitted ∨ s = .auto_graded ∨ s = .timeout ∨
       s = .manually_graded)) ∧
    countsTowardLimit .flagged = false ∧
    countsTowardLimit .needs_manual_review = false ∧
    countsTowardLimit .in_progress = false ∧
    countsTowardLimit .abandoned = false ∧
    (startQuizLimitBlocked statuses allowed = true ↔
      completedAttemptsCount statuses ≥ allowed) ∧
    startQuizLimitBlocked (List.replicate n .flagged) allowed = false ∧
    (startAttemptLimitBlocked3 statuses allowed = true ↔
      statuses.length ≥ allowed) := by
  refine ⟨?_, rfl, rfl, rfl, rfl, ?_, ?_, ?_⟩
  · cases s <;> simp [countsTowardLimit]
  · simp [startQuizLimitBlocked]
  · simp [startQuizLimitBlocked, completedAttemptsCount,
      filter_replicate_flagged]
    omega
  · simp [startAttemptLimitBlocked3]

/-- Witness for C9 (amended): two flagged attempts, attemptsAllowed 1. -/
theorem C9_witness :
    1 ≤ 1 ∧
    startQuizLimitBlocked (List.replicate 2 .flagged) 1 = false ∧
    (startAttemptLimitBlocked3 [AttemptStatus.flagged, .flagged] 1 = true ↔
      ([AttemptStatus.flagged, .flagged] : List AttemptStatus).length ≥ 1) := by
  have h := C9_start_limit_statuses [AttemptStatus.flagged, .flagged] 1
    .submitted 2 (by decide)
  exact ⟨by decide, h.2.2.2.2.2.2.1, h.2.2.2.2.2.2.2⟩

/-- A successful submitQuiz call always leaves the attempt in status
submitted and never changes the owning user. -/
theorem submitQuizStep_ok (a : AttemptQ) (quiz : QuizCfg) (r : SubmitReq)
    (bank : List Question) (nowMs : ℤ)
    (hok : (submitQuizStep a quiz r bank nowMs).1 = .ok) :
    (submitQuizStep a quiz r bank nowMs).2.status = .submitted ∧
    (submitQuizStep a quiz r bank nowMs).2.user = a.user := by
  by_cases h1 : r.studentId ≠ a.user
  · simp [submitQuizStep, h1] at hok
  · by_cases h2 : a.status ≠ .in_progress
    · simp [submitQuizStep, h1, h2] at hok
    · by_cases h3 : ((Int.fdiv (nowMs - a.startTimeMs) 1000 : ℤ) : ℚ) >
          quiz.durationMinutes * 60 + 30
      · simp [submitQuizStep, h1, h2, h3] at hok
      · cases hans : r.answers with
        | none => simp [submitQuizStep, h1, h2, h3, hans] at hok
        | some ans => simp [submitQuizStep, h1, h2, h3, hans]

/-- The idempotency guard of submitQuiz: any status other than in_progress
is rejected with that status and the attempt is returned unchanged. -/
theorem submitQuizStep_already (a : AttemptQ) (quiz : QuizCfg)
    (r : SubmitReq) (bank : List Question) (nowMs : ℤ)
    (hown : r.studentId = a.user) (h : a.status ≠ .in_progress) :
    submitQuizStep a quiz r bank nowMs = (.alreadySubmitted a.status, a) := by
  simp [submitQuizStep, hown, h]

/-- Claim C1: once an attempt is out of in_progress, a further submit call
on either controller is rejected with the stored status and leaves the
attempt document untouched, and a successful submitQuiz is immediately
followed by that rejection on any retry: an attempt is transitioned and
scored at most once. -/
theorem C1_submit_at_most_once (a : AttemptQ) (quiz : QuizCfg)
    (r : SubmitReq) (bank : List Question) (nowMs : ℤ)
    (a3 : Attempt3) (dur : ℚ) (maxTab : ℤ) (aip : Bool)
    (g : GradingOutcome) (sip sua : String) (now3 : ℤ)
    (hown : r.studentId = a.user) :
    (a.status ≠ .in_progress →
      submitQuizStep a quiz r bank nowMs =
        (.alreadySubmitted a.status, a)) ∧
    (a3.status ≠ .in_progress →
      submitAttempt3 a3 dur maxTab aip g sip sua now3 =
        (.rejectedAlready a3.status, a3)) ∧
    (∀ (quiz2 : QuizCfg) (r2 : SubmitReq) (bank2 : List Question)
        (now2 : ℤ), r2.studentId = a.user →
      (submitQuizStep a quiz r bank nowMs).1 = .ok →
      submitQuizStep (submitQuizStep a quiz r bank nowMs).2 quiz2 r2 bank2
          now2 =
        (.alreadySubmitted .submitted,
          (submitQuizStep a quiz r bank nowMs).2)) := by
  refine ⟨?_, ?_, ?_⟩
  · intro h
    exact submitQuizStep_already a quiz r bank nowMs hown h
  · intro h
    simp [submitAttempt3, h]
  · intro quiz2 r2 bank2 now2 hown2 hok
    obtain ⟨hst, hus⟩ := submitQuizStep_ok a quiz r bank nowMs hok
    have h1 : r2.studentId = (submitQuizStep a quiz r bank nowMs).2.user :=
      hown2.trans hus.symm
    have h2 : (submitQuizStep a quiz r bank nowMs).2.status ≠ .in_progress := by
      simp [hst]
    rw [submitQuizStep_already (submitQuizStep a quiz r bank nowMs).2 quiz2
      r2 bank2 now2 h1 h2, hst]

/-- The quiz configuration used for concrete instantiations: a 30-minute
quiz with passing marks 5 and IP tracking off. -/
def quizBasic : QuizCfg :=
  { durationMinutes := 30, passingMarks := 5, showCorrectAnswers := false,
    antiCheatSettings :=
      { maxTabSwitches := none, trackIPAddress := false,
        allowIPChange := false } }

/-- A submit request matching attemptInProgress with an empty answer
array. -/
def reqBasic : SubmitReq :=
  { studentId := "u1", answers := some [], tabSwitches := none,
    timeSpentSeconds := none, clientFingerprint := none, submitIP := "ip",
    submitUserAgent := "ua" }

/-- The attempt of attemptInProgress after it has been submitted. -/
def attemptSubmitted : AttemptQ :=
  { attemptInProgress with status := .submitted }

/-- Witness for C1: a repeated submit on an already-submitted attempt is
rejected with the stored status and changes nothing. -/
theorem C1_witness :
    reqBasic.studentId = attemptSubmitted.user ∧
    attemptSubmitted.status ≠ .in_progress ∧
    submitQuizStep attemptSubmitted quizBasic reqBasic [] 0 =
      (.alreadySubmitted attemptSubmitted.status, attemptSubmitted) := by
  have hown : reqBasic.studentId = attemptSubmitted.user := rfl
  have hst : attemptSubmitted.status ≠ .in_progress := by
    intro h
    exact absurd h (by simp [attemptSubmitted, attemptInProgress])
  exact ⟨hown, hst,
    (C1_submit_at_most_once attemptSubmitted quizBasic reqBasic [] 0
      { status := .auto_graded, startTimeMs := 0, endTimeMs := none,
        tabSwitches := 0, ipAtStart := "ip", ipAtEnd := none,
        userAgentEnd := none, totalScore := 0, maxScore := 10,
        autoGradeResult := [], flaggedReasons := [] }
      30 5 false { results := [], totalScore := 0, needsManualReview := false }
      "ip" "ua" 0 hown).1 hst⟩

/-- Counterexample for C5: a successful, non-expired submitQuiz call (here
one that even emits a suspiciously-fast anti-cheat reason) leaves the
attempt in status submitted, which is none of auto_graded,
needs_manual_review, or flagged. -/
theorem C5_counterexample :
    (submitQuizStep attemptInProgress quizBasic reqBasic [] 0).1 = .ok ∧
    (submitQuizStep attemptInProgress quizBasic reqBasic [] 0).2.status =
      .submitted ∧
    (submitQuizStep attemptInProgress quizBasic reqBasic [] 0
      ).2.flaggedReasons ≠ [] ∧
    AttemptStatus.submitted ≠ .auto_graded ∧
    AttemptStatus.submitted ≠ .needs_manual_review ∧
    AttemptStatus.submitted ≠ .flagged := by
  refine ⟨?_, ?_, ?_, by decide, by decide, by decide⟩ <;>
    norm_num [submitQuizStep, attemptInProgress, quizBasic, reqBasic,
      submitTabSwitches, jsTruthyS, jsOrQ, gradeLoop, initAcc, clampScore,
      min_def]

/-- Claim C5 (amended): in AttemptsController.submitAttempt a successful
submit resolves to exactly one of flagged (some anti-cheat reason was
emitted), needs_manual_review (no reason, grading asks for review), or
auto_graded (neither); in QuizzesController.submitQuiz a successful
non-expired submit instead always resolves to status submitted. -/
theorem C5_submit_status_resolution (a3 : Attempt3) (dur : ℚ) (maxTab : ℤ)
    (aip : Bool) (g : GradingOutcome) (sip sua : String) (now3 : ℤ)
    (h3 : a3.status = .in_progress)
    (a : AttemptQ) (quiz : QuizCfg) (r : SubmitReq) (bank : List Question)
    (nowMs : ℤ) (ans : List SubmittedAnswer)
    (hown : r.studentId = a.user) (hip : a.status = .in_progress)
    (hnt : ¬ (((Int.fdiv (nowMs - a.startTimeMs) 1000 : ℤ) : ℚ) >
      quiz.durationMinutes * 60 + 30))
    (hans : r.answers = some ans) :
    ((submitAttempt3 a3 dur maxTab aip g sip sua now3).2.status = .flagged ∨
     (submitAttempt3 a3 dur maxTab aip g sip sua now3).2.status =
       .needs_manual_review ∨
     (submitAttempt3 a3 dur maxTab aip g sip sua now3).2.status =
       .auto_graded) ∧
    ((submitAttempt3 a3 dur maxTab aip g sip sua now3).2.status = .flagged ↔
      computeFlags3 a3.tabSwitches maxTab a3.ipAtStart sip aip
        (now3 - a3.startTimeMs) (dur * 60 * 1000) ≠ []) ∧
    ((submitAttempt3 a3 dur maxTab aip g sip sua now3).2.status =
        .needs_manual_review ↔
      (computeFlags3 a3.tabSwitches maxTab a3.ipAtStart sip aip
        (now3 - a3.startTimeMs) (dur * 60 * 1000) = [] ∧
       g.needsManualReview = true)) ∧
    ((submitAttempt3 a3 dur maxTab aip g sip sua now3).2.status =
        .auto_graded ↔
      (computeFlags3 a3.tabSwitches maxTab a3.ipAtStart sip aip
        (now3 - a3.startTimeMs) (dur * 60 * 1000) = [] ∧
       g.needsManualReview = false)) ∧
    (submitQuizStep a quiz r bank nowMs).1 = .ok ∧
    (submitQuizStep a quiz r bank nowMs).2.status = .submitted := by
  have hng : ¬ (a3.status ≠ .in_progress) := by simp [h3]
  constructor
  · simp only [submitAttempt3, if_neg hng]
    by_cases hf : computeFlags3 a3.tabSwitches maxTab a3.ipAtStart sip aip
        (now3 - a3.startTimeMs) (dur * 60 * 1000) ≠ []
    · simp [hf]
    · rw [not_ne_iff] at hf
      by_cases hr : g.needsManualReview <;> simp [hf, hr]
  refine ⟨?_, ?_, ?_, ?_, ?_⟩
  · simp only [submitAttempt3, if_neg hng]
    by_cases hf : computeFlags3 a3.tabSwitches maxTab a3.ipAtStart sip aip
        (now3 - a3.startTimeMs) (dur * 60 * 1000) ≠ []
    · simp [hf]
    · rw [not_ne_iff] at hf
      by_cases hr : g.needsManualReview <;> simp [hf, hr]
  · simp only [submitAttempt3, if_neg hng]
    by_cases hf : computeFlags3 a3.tabSwitches maxTab a3.ipAtStart sip aip
        (now3 - a3.startTimeMs) (dur * 60 * 1000) ≠ []
    · simp [hf]
    · rw [not_ne_iff] at hf
      by_cases hr : g.needsManualReview <;> simp [hf, hr]
  · simp only [submitAttempt3, if_neg hng]
    by_cases hf : computeFlags3 a3.tabSwitches maxTab a3.ipAtStart sip aip
        (now3 - a3.startTimeMs) (dur * 60 * 1000) ≠ []
    · simp [hf]
    · rw [not_ne_iff] at hf
      by_cases hr : g.needsManualReview <;> simp [hf, hr]
  · simp [submitQuizStep, hown, hip, hnt, hans]
  · simp [submitQuizStep, hown, hip, hnt, hans]

/-- An in_progress attempt document of the attempts controller, used to
instantiate its claims on concrete inputs. -/
def attempt3InProgress : Attempt3 :=
  { status := .in_progress, startTimeMs := 0, endTimeMs := none,
    tabSwitches := 0, ipAtStart := "ip", ipAtEnd := none,
    userAgentEnd := none, totalScore := 0, maxScore := 10,
    autoGradeResult := [], flaggedReasons := [] }

/-- An empty grading-service outcome requiring no manual review. -/
def gradingEmpty : GradingOutcome :=
  { results := [], totalScore := 0, needsManualReview := false }

/-- Witness for C5 (amended), instantiating both controllers: a flagless,
review-free submitAttempt resolves to auto_graded while the corresponding
submitQuiz resolves to submitted. -/
theorem C5_witness :
    attempt3InProgress.status = .in_progress ∧
    reqBasic.studentId = attemptInProgress.user ∧
    attemptInProgress.status = .in_progress ∧
    ¬ (((Int.fdiv ((600000 : ℤ) - attemptInProgress.startTimeMs) 1000 :
        ℤ) : ℚ) > quizBasic.durationMinutes * 60 + 30) ∧
    reqBasic.answers = some [] ∧
    ((submitAttempt3 attempt3InProgress 30 5 false gradingEmpty
        "ip" "ua" 600000).2.status = .auto_graded ↔
      (computeFlags3 attempt3InProgress.tabSwitches 5
        attempt3InProgress.ipAtStart "ip" false
        (600000 - attempt3InProgress.startTimeMs) (30 * 60 * 1000) = [] ∧
       gradingEmpty.needsManualReview = false)) ∧
    (submitQuizStep attemptInProgress quizBasic reqBasic [] 600000
      ).2.status = .submitted := by
  have h3 : attempt3InProgress.status = .in_progress := rfl
  have hown : reqBasic.studentId = attemptInProgress.user := rfl
  have hip : attemptInProgress.status = .in_progress := rfl
  have hnt : ¬ (((Int.fdiv ((600000 : ℤ) - attemptInProgress.startTimeMs)
      1000 : ℤ) : ℚ) > quizBasic.durationMinutes * 60 + 30) := by
    show ¬ (((Int.fdiv ((600000 : ℤ) - 0) 1000 : ℤ) : ℚ) >
      (30 : ℚ) * 60 + 30)
    have hfd : Int.fdiv ((600000 : ℤ) - 0) 1000 = 600 := by decide
    rw [hfd]
    norm_num
  have hans : reqBasic.answers = some [] := rfl
  have h := C5_submit_status_resolution attempt3InProgress 30 5 false
    gradingEmpty "ip" "ua" 600000 h3 attemptInProgress quizBasic reqBasic
    [] 600000 [] hown hip hnt hans
  exact ⟨h3, hown, hip, hnt, hans, h.2.2.2.1, h.2.2.2.2.2⟩

/-- The sum of the scores of a list of grade entries. -/
def sumScores (l : List GradeEntry) : ℚ :=
  (l.map (fun e => e.score)).sum

/-- Each grading-loop iteration keeps the running totalScore equal to the
sum of the scores of the recorded entries. -/
theorem gradeOne_total_eq (bank : List Question)
    (answers : List SubmittedAnswer) (acc : GradeAcc)
    (sq : SelectedQuestion)
    (h : acc.totalScore = sumScores acc.results) :
    (gradeOne bank answers acc sq).totalScore =
      sumScores (gradeOne bank answers acc sq).results := by
  simp only [gradeOne]
  cases hfind : bank.find? (fun q => q.qid = sq.question) with
  | none => simpa using h
  | some q =>
    cases hsub : submittedVal
        (answers.find? (fun a => a.questionId = sq.question)) with
    | none => simp [sumScores, h]
    | some val =>
      cases hg : gradeAnswered q val (jsOrQ sq.marks (jsOrQ (some q.marks) 1))
          with
      | none => simp [hg, h]
      | some g => simp [hg, sumScores, h]

/-- The loop invariant extended over the whole fold. -/
theorem gradeLoop_total_eq (bank : List Question)
    (answers : List SubmittedAnswer) (sel : List SelectedQuestion)
    (acc : GradeAcc) (h : acc.totalScore = sumScores acc.results) :
    (sel.foldl (gradeOne bank answers) acc).totalScore =
      sumScores ((sel.foldl (gradeOne bank answers) acc).results) := by
  induction sel generalizing acc with
  | nil => simpa using h
  | cons sq rest ih =>
    exact ih (gradeOne bank answers acc sq)
      (gradeOne_total_eq bank answers acc sq h)

/-- Claim C4: the persisted totalScore of a graded attempt is the sum of
the per-question scores clamped at zero, hence never negative, and the
submitQuiz success path stores exactly that value. -/
theorem C4_total_score_clamped (sel : List SelectedQuestion)
    (bank : List Question) (answers : List SubmittedAnswer) (a : AttemptQ)
    (quiz : QuizCfg) (r : SubmitReq) (nowMs : ℤ)
    (hown : r.studentId = a.user) (hip : a.status = .in_progress)
    (hnt : ¬ (((Int.fdiv (nowMs - a.startTimeMs) 1000 : ℤ) : ℚ) >
      quiz.durationMinutes * 60 + 30))
    (hans : r.answers = some answers)
    (hsel : a.selectedQuestions = sel) :
    clampScore (gradeLoop sel bank answers).totalScore =
      max 0 (sumScores (gradeLoop sel bank answers).results) ∧
    0 ≤ clampScore (gradeLoop sel bank answers).totalScore ∧
    (submitQuizStep a quiz r bank nowMs).2.totalScore =
      clampScore (gradeLoop sel bank answers).totalScore := by
  refine ⟨?_, le_max_left 0 _, ?_⟩
  · have hx := gradeLoop_total_eq bank answers sel initAcc
      (by simp [initAcc, sumScores])
    simp only [clampScore, gradeLoop] at *
    rw [hx]
  · simp [submitQuizStep, hown, hip, hnt, hans, hsel]

/-- Witness for C4 on the concrete in_progress attempt with an empty
snapshot and an empty answer array. -/
theorem C4_witness :
    reqBasic.studentId = attemptInProgress.user ∧
    attemptInProgress.status = .in_progress ∧
    ¬ (((Int.fdiv ((600000 : ℤ) - attemptInProgress.startTimeMs) 1000 :
        ℤ) : ℚ) > quizBasic.durationMinutes * 60 + 30) ∧
    reqBasic.answers = some [] ∧
    attemptInProgress.selectedQuestions = [] ∧
    clampScore (gradeLoop [] [] []).totalScore =
      max 0 (sumScores (gradeLoop [] [] []).results) ∧
    0 ≤ clampScore (gradeLoop [] [] []).totalScore ∧
    (submitQuizStep attemptInProgress quizBasic reqBasic [] 600000
      ).2.totalScore = clampScore (gradeLoop [] [] []).totalScore := by
  have hown : reqBasic.studentId = attemptInProgress.user := rfl
  have hip : attemptInProgress.status = .in_progress := rfl
  have hnt : ¬ (((Int.fdiv ((600000 : ℤ) - attemptInProgress.startTimeMs)
      1000 : ℤ) : ℚ) > quizBasic.durationMinutes * 60 + 30) := by
    show ¬ (((Int.fdiv ((600000 : ℤ) - 0) 1000 : ℤ) : ℚ) >
      (30 : ℚ) * 60 + 30)
    have hfd : Int.fdiv ((600000 : ℤ) - 0) 1000 = 600 := by decide
    rw [hfd]
    norm_num
  have hans : reqBasic.answers = some [] := rfl
  have hsel : attemptInProgress.selectedQuestions = [] := rfl
  have h := C4_total_score_clamped [] [] [] attemptInProgress quizBasic
    reqBasic 600000 hown hip hnt hans hsel
  exact ⟨hown, hip, hnt, hans, hsel, h.1, h.2.1, h.2.2⟩

/-- Claim C8: an answered numeric question earns the full marks exactly
when the submitted number is within the effective tolerance of the correct
one, and otherwise earns minus the negative marks; the effective tolerance
is the default 0.01 when the question specifies none, and the specified
value when it is nonzero (the JS `|| 0.01` fallback also maps an explicit
zero tolerance to the default). -/
theorem C8_numeric_tolerance (s c marks neg : ℚ) (tol : Option ℚ)
    (v : ℚ) :
    (gradeNumeric (.number c) tol (.number s) marks neg).score =
      (if |s - c| ≤ jsOrQ tol (1 / 100) then marks else -neg) ∧
    ((gradeNumeric (.number c) tol (.number s) marks neg).isCorrect =
        true ↔ |s - c| ≤ jsOrQ tol (1 / 100)) ∧
    ((gradeNumeric (.number c) tol (.number s) marks neg).tag = .correct ↔
      |s - c| ≤ jsOrQ tol (1 / 100)) ∧
    jsOrQ none (1 / 100) = 1 / 100 ∧
    jsOrQ (some v) (1 / 100) = (if v = 0 then 1 / 100 else v) := by
  refine ⟨?_, ?_, ?_, rfl, rfl⟩ <;>
  · by_cases h : |s - c| ≤ jsOrQ tol (1 / 100) <;>
      simp [gradeNumeric, parseFloatQ, h]

/-- Counting the submitted ids that hit the correct set equals the
cardinality of the set intersection, for a duplicate-free submission. -/
theorem filter_mem_length (S C : List String) (hS : S.Nodup) :
    (S.filter (fun x => decide (x ∈ C))).length =
      (S.toFinset ∩ C.toFinset).card := by
  have h1 : (S.filter (fun x => decide (x ∈ C))).toFinset =
      S.toFinset ∩ C.toFinset := by
    ext x
    simp [List.mem_toFinset, List.mem_filter, Finset.mem_inter]
  rw [← h1, List.toFinset_card_of_nodup (List.Nodup.filter _ hS)]

/-- Counting the submitted ids that miss the correct set equals the
cardinality of the set difference, for a duplicate-free submission. -/
theorem filter_not_mem_length (S C : List String) (hS : S.Nodup) :
    (S.filter (fun x => decide (x ∉ C))).length =
      (S.toFinset \ C.toFinset).card := by
  have h1 : (S.filter (fun x => decide (x ∉ C))).toFinset =
      S.toFinset \ C.toFinset := by
    ext x
    simp [List.mem_toFinset, List.mem_filter, Finset.mem_sdiff]
  rw [← h1, List.toFinset_card_of_nodup (List.Nodup.filter _ hS)]

/-- Filtering commutes with sorting as far as lengths are concerned. -/
theorem sort_filter_length (S : List String) (p : String → Bool) :
    ((sortStrings S).filter p).length = (S.filter p).length := by
  rw [← List.countP_eq_length_filter, ← List.countP_eq_length_filter]
  exact (sortStrings_perm S).countP_eq p

/-- In the non-exact branch of gradeMcqMulti, the count bucket is partial
exactly when the score is positive and wrong exactly when it is zero. -/
theorem gradeMcqMulti_else_tags (cs : List Choice) (val : AnswerValue)
    (marks : ℚ) (h : submittedChoiceIds val ≠ correctChoiceIds cs) :
    ((gradeMcqMulti cs val marks).tag = .part ↔
      0 < (gradeMcqMulti cs val marks).score) ∧
    ((gradeMcqMulti cs val marks).tag = .wrong ↔
      (gradeMcqMulti cs val marks).score = 0) := by
  simp only [gradeMcqMulti, if_neg h]
  split_ifs with hp
  · exact ⟨iff_of_true rfl hp, iff_of_false (by decide) hp.ne'⟩
  · have h0 := le_antisymm (not_lt.mp hp) (le_max_left _ _)
    exact ⟨iff_of_false (by decide) (h0 ▸ hp), iff_of_true rfl h0⟩

/-- Claim C2: for a graded mcq_multi question with duplicate-free correct
set C and submitted set S, the score is the full marks when S = C, and
otherwise `max(0, (card(S ∩ C) − card(S \ C)) / card C) * marks`, counted
as partial when positive and as wrong when zero. -/
theorem C2_mcq_multi_partial_credit (cs : List Choice) (S : List String)
    (marks : ℚ) (hC : (correctIdsRaw cs).Nodup) (hS : S.Nodup)
    (_hne : correctIdsRaw cs ≠ []) (hm : 0 ≤ marks) :
    (gradeMcqMulti cs (.choices S) marks).score =
      (if S.toFinset = (correctIdsRaw cs).toFinset then marks
       else
         max 0
           ((((S.toFinset ∩ (correctIdsRaw cs).toFinset).card : ℚ) -
             ((S.toFinset \ (correctIdsRaw cs).toFinset).card : ℚ)) /
            ((correctIdsRaw cs).toFinset.card : ℚ)) * marks) ∧
    (S.toFinset ≠ (correctIdsRaw cs).toFinset →
      (((gradeMcqMulti cs (.choices S) marks).tag = .part ↔
        0 < (gradeMcqMulti cs (.choices S) marks).score) ∧
       ((gradeMcqMulti cs (.choices S) marks).tag = .wrong ↔
        (gradeMcqMulti cs (.choices S) marks).score = 0))) := by
  have hiff : (sortStrings S = sortStrings (correctIdsRaw cs)) ↔
      (S.toFinset = (correctIdsRaw cs).toFinset) :=
    (sortStrings_eq_iff_perm S (correctIdsRaw cs)).trans
      (perm_iff_toFinset_eq hS hC)
  by_cases heq : S.toFinset = (correctIdsRaw cs).toFinset
  · have hmatch : sortStrings S = sortStrings (correctIdsRaw cs) :=
      hiff.mpr heq
    constructor
    · simp [gradeMcqMulti, submittedChoiceIds, correctChoiceIds, hmatch, heq]
    · intro hne2
      exact absurd heq hne2
  · have hmatch : ¬ (sortStrings S = sortStrings (correctIdsRaw cs)) :=
      fun hx => heq (hiff.mp hx)
    have hmatch2 : submittedChoiceIds (.choices S) ≠ correctChoiceIds cs := by
      simpa [submittedChoiceIds, correctChoiceIds] using hmatch
    have hpm : (fun sc => decide (sc ∈ sortStrings (correctIdsRaw cs))) =
        (fun sc => decide (sc ∈ correctIdsRaw cs)) :=
      funext fun x => decide_eq_decide.mpr ((sortStrings_perm _).mem_iff)
    have hpn : (fun sc => decide (sc ∉ sortStrings (correctIdsRaw cs))) =
        (fun sc => decide (sc ∉ correctIdsRaw cs)) :=
      funext fun x =>
        decide_eq_decide.mpr (not_congr ((sortStrings_perm _).mem_iff))
    have hcs : ((sortStrings S).filter
        (fun sc => decide (sc ∈ sortStrings (correctIdsRaw cs)))).length =
        (S.toFinset ∩ (correctIdsRaw cs).toFinset).card := by
      rw [hpm, sort_filter_length]
      exact filter_mem_length S _ hS
    have hws : ((sortStrings S).filter
        (fun sc => decide (sc ∉ sortStrings (correctIdsRaw cs)))).length =
        (S.toFinset \ (correctIdsRaw cs).toFinset).card := by
      rw [hpn, sort_filter_length]
      exact filter_not_mem_length S _ hS
    have hlen : (sortStrings (correctIdsRaw cs)).length =
        (correctIdsRaw cs).toFinset.card := by
      rw [(sortStrings_perm _).length_eq, List.toFinset_card_of_nodup hC]
    refine ⟨?_, fun _ => gradeMcqMulti_else_tags cs (.choices S) marks
      hmatch2⟩
    simp only [gradeMcqMulti, submittedChoiceIds, correctChoiceIds,
      if_neg hmatch, if_neg heq]
    rw [hcs, hws, hlen, max_mul_of_nonneg _ _ hm, zero_mul]

/-- The spec example question for C2: correct choice ids A, B, C and an
additional incorrect choice D. -/
def csExample : List Choice :=
  [{ id := "A", text := "a", isCorrect := true },
   { id := "B", text := "b", isCorrect := true },
   { id := "C", text := "c", isCorrect := true },
   { id := "D", text := "d", isCorrect := false }]

/-- Witness for C2: correct set A, B, C; submitted A, B; marks 3. -/
theorem C2_witness :
    (correctIdsRaw csExample).Nodup ∧
    (["A", "B"] : List String).Nodup ∧
    correctIdsRaw csExample ≠ [] ∧
    (0 : ℚ) ≤ 3 ∧
    (gradeMcqMulti csExample (.choices ["A", "B"]) 3).score =
      (if (["A", "B"] : List String).toFinset =
          (correctIdsRaw csExample).toFinset then (3 : ℚ)
       else
         max 0
           ((((((["A", "B"] : List String).toFinset ∩
               (correctIdsRaw csExample).toFinset).card : ℚ)) -
             ((((["A", "B"] : List String).toFinset \
               (correctIdsRaw csExample).toFinset).card : ℚ))) /
            ((correctIdsRaw csExample).toFinset.card : ℚ)) * 3) :=
  ⟨by decide, by decide, by decide, by norm_num,
   (C2_mcq_multi_partial_credit csExample ["A", "B"] 3 (by decide)
     (by decide) (by decide) (by norm_num)).1⟩

end QuizEngine
